import Mathlib

/-!
A shallow embedding of the process-supervision and session-lifecycle core of
the mrmd orchestrator (src/mrmd_orchestrator/orchestrator.py), together with
proofs about its port allocator, session coordinator and shutdown behaviour.

Python dicts are embedded as association lists, Python sets of ports as
Finset Nat, and the asynchronous operations as sequential state-passing
functions that additionally return the ordered trace of externally visible
events (process stops, port releases, ...), which is what the temporal and
frame claims quantify over.  The filesystem and the outcome of readiness
detection are abstracted into an explicit environment argument.
-/

namespace Mrmd

/-- Lookup in an association list, embedding Python dict.get. -/
def dictGet {α : Type} : List (String × α) → String → Option α
  | [], _ => none
  | kv :: t, k => if kv.1 = k then some kv.2 else dictGet t k

/-- Update/insert in an association list, embedding Python dict assignment. -/
def dictSet {α : Type} : List (String × α) → String → α → List (String × α)
  | [], k, v => [(k, v)]
  | kv :: t, k, v => if kv.1 = k then (k, v) :: t else kv :: dictSet t k v

/-- Deletion from an association list, embedding Python del d[k]. -/
def dictDel {α : Type} : List (String × α) → String → List (String × α)
  | [], _ => []
  | kv :: t, k => if kv.1 = k then dictDel t k else kv :: dictDel t k

/-- The key list of an association list, embedding list(d.keys()). -/
def dictKeys {α : Type} (d : List (String × α)) : List String :=
  d.map Prod.fst

/-- Externally visible resource events, in the order the code performs them. -/
inductive Event where
  | startProc : String → Event
  | stopProc : String → Event
  | allocPort : Nat → Event
  | releasePort : Nat → Event
deriving DecidableEq

/-- Environment abstraction: which filesystem paths exist, and whether a
named child process would reach its readiness marker before the timeout. -/
structure Env where
  pathExists : String → Bool
  startOk : String → Bool

/-- Modelled from the spec: lifecycle outcome of a ProcessRecord as observable
between calls.  A start call resolves to Running (readiness marker observed)
or Failed (missing working directory, early exit, or timeout); Starting and
Stopping are transient inside calls, and Stopped records are removed from the
table by stop, so only these two states persist in the table.
(src/mrmd_orchestrator/processes.py is not under src/.) -/
inductive ProcStatus where
  | running
  | failed
deriving DecidableEq

/-- Modelled from the spec: the Process Supervisor's table of named child
processes (ProcessManager of the missing src/mrmd_orchestrator/processes.py). -/
structure ProcessManager where
  table : List (String × ProcStatus)
deriving DecidableEq

/-- Modelled from the spec: start(name, command, cwd, marker, timeout).
Starting a name that already has a non-terminal (running) record is a no-op
returning the existing record; a missing working directory yields a Failed
record without spawning; otherwise the readiness race resolves to Running or
Failed according to the environment. -/
def ProcessManager.start (pm : ProcessManager) (env : Env) (name cwd : String) :
    ProcStatus × ProcessManager × List Event :=
  match dictGet pm.table name with
  | some ProcStatus.running => (ProcStatus.running, pm, [])
  | _ =>
    if env.pathExists cwd then
      if env.startOk name then
        (ProcStatus.running, ⟨dictSet pm.table name ProcStatus.running⟩, [Event.startProc name])
      else
        (ProcStatus.failed, ⟨dictSet pm.table name ProcStatus.failed⟩, [Event.startProc name])
    else
      (ProcStatus.failed, ⟨dictSet pm.table name ProcStatus.failed⟩, [])

/-- Modelled from the spec: stop(name) is a no-op success when no record
exists; otherwise the process is terminated (gracefully then forcibly) and its
record removed from the table; the result is success in either case. -/
def ProcessManager.stop (pm : ProcessManager) (name : String) :
    Bool × ProcessManager × List Event :=
  match dictGet pm.table name with
  | none => (true, pm, [])
  | some _ => (true, ⟨dictDel pm.table name⟩, [Event.stopProc name])

/-- Modelled from the spec: stopAll stops every tracked process in turn. -/
def ProcessManager.stopAllGo (pm : ProcessManager) :
    List String → List Event → ProcessManager × List Event
  | [], acc => (pm, acc)
  | n :: ns, acc =>
    let r := pm.stop n
    ProcessManager.stopAllGo r.2.1 ns (acc ++ r.2.2)

/-- Modelled from the spec: stop_all stops every tracked process. -/
def ProcessManager.stop_all (pm : ProcessManager) : ProcessManager × List Event :=
  pm.stopAllGo (dictKeys pm.table) []

/-- Modelled from the spec: isRunning(name) read-only query. -/
def ProcessManager.is_running (pm : ProcessManager) (name : String) : Bool :=
  match dictGet pm.table name with
  | some ProcStatus.running => true
  | _ => false

/-- PortAllocator state: the configured range and the reserved set
(orchestrator.py lines 31-54; the Python set becomes a Finset). -/
structure PortAllocator where
  base_port : Nat
  max_ports : Nat
  allocated : Finset Nat
deriving DecidableEq

/-- The ascending scan of PortAllocator.allocate's for-loop: try offsets
off, off+1, ... while fuel remains, returning the first free port. -/
def PortAllocator.scanFrom (pa : PortAllocator) (off : Nat) : Nat → Option Nat
  | 0 => none
  | fuel + 1 =>
    if pa.base_port + off ∈ pa.allocated then pa.scanFrom (off + 1) fuel
    else some (pa.base_port + off)

/-- PortAllocator.allocate (orchestrator.py lines 39-46): scan the range in
ascending order for the first free port and reserve it; none embeds the
RuntimeError raised when every port in range is reserved. -/
def PortAllocator.allocate (pa : PortAllocator) : Option (Nat × PortAllocator) :=
  match pa.scanFrom 0 pa.max_ports with
  | some port => some (port, { pa with allocated := insert port pa.allocated })
  | none => none

/-- PortAllocator.release (orchestrator.py lines 48-50): set.discard. -/
def PortAllocator.release (pa : PortAllocator) (port : Nat) : PortAllocator :=
  { pa with allocated := pa.allocated.erase port }

/-- PortAllocator.is_allocated (orchestrator.py lines 52-54). -/
def PortAllocator.is_allocated (pa : PortAllocator) (port : Nat) : Bool :=
  decide (port ∈ pa.allocated)

/-- Sync-server section of the configuration (fields as used by
orchestrator.py; the config assembly itself lives in the missing config.py). -/
structure SyncConfig where
  managed : Bool
  package_path : String
  docs_dir : String
  port : Nat
  url : String
deriving DecidableEq

/-- Per-language runtime section of the configuration. -/
structure RuntimeConfig where
  managed : Bool
  package_path : String
  port : Nat
  url : String
deriving DecidableEq

/-- Monitor section of the configuration. -/
structure MonitorConfig where
  managed : Bool
  package_path : String
deriving DecidableEq

/-- Modelled from the spec: the resolved immutable configuration consumed by
the orchestrator (OrchestratorConfig of the missing
src/mrmd_orchestrator/config.py); find_packages_dir stands for the result of
the missing helper used at orchestrator.py line 326. -/
structure OrchestratorConfig where
  sync : SyncConfig
  runtimes : List (String × RuntimeConfig)
  monitor : MonitorConfig
  find_packages_dir : String
deriving DecidableEq

/-- The effective package path for a dedicated python runtime, collapsing
orchestrator.py lines 324-331: when the python runtime is configured its
package_path is used (line 324 already selects it and lines 329-331
re-assign the same value), otherwise the packages directory fallback. -/
def OrchestratorConfig.python_package_path (cfg : OrchestratorConfig) : String :=
  match dictGet cfg.runtimes "python" with
  | some pc => pc.package_path
  | none => cfg.find_packages_dir ++ "/mrmd-python"

/-- SessionInfo (orchestrator.py lines 20-28). -/
structure SessionInfo where
  doc : String
  monitor_process : Option String := none
  runtime_process : Option String := none
  runtime_url : Option String := none
  runtime_port : Option Nat := none
  dedicated_runtime : Bool := false
deriving DecidableEq

/-- Orchestrator state (orchestrator.py lines 66-72). -/
structure Orchestrator where
  config : OrchestratorConfig
  processes : ProcessManager
  monitors : List (String × String)
  sessions : List (String × SessionInfo)
  port_allocator : PortAllocator
  started : Bool
deriving DecidableEq

/-- Orchestrator.__init__: empty tables, allocator with base port 8001 and
the default max of 100 ports. -/
def Orchestrator.init (config : OrchestratorConfig) : Orchestrator :=
  { config := config
    processes := ⟨[]⟩
    monitors := []
    sessions := []
    port_allocator := ⟨8001, 100, ∅⟩
    started := false }

/-- Orchestrator._start_sync (orchestrator.py lines 110-136): start the sync
server unless its package path is missing. -/
def Orchestrator.start_sync (o : Orchestrator) (env : Env) : Orchestrator × List Event :=
  if env.pathExists o.config.sync.package_path then
    let r := o.processes.start env "mrmd-sync" o.config.sync.package_path
    ({ o with processes := r.2.1 }, r.2.2)
  else (o, [])

/-- Orchestrator._start_python_runtime (orchestrator.py lines 145-165). -/
def Orchestrator.start_python_runtime (o : Orchestrator) (env : Env)
    (rc : RuntimeConfig) : Orchestrator × List Event :=
  if env.pathExists rc.package_path then
    let r := o.processes.start env "mrmd-python" rc.package_path
    ({ o with processes := r.2.1 }, r.2.2)
  else (o, [])

/-- Orchestrator._start_runtime (orchestrator.py lines 138-143): only the
python language is known. -/
def Orchestrator.start_runtime (o : Orchestrator) (env : Env) (lang : String)
    (rc : RuntimeConfig) : Orchestrator × List Event :=
  if lang = "python" then o.start_python_runtime env rc else (o, [])

/-- The loop over configured runtimes in Orchestrator.start
(orchestrator.py lines 86-88). -/
def Orchestrator.startRuntimesGo (env : Env) :
    Orchestrator → List (String × RuntimeConfig) → Orchestrator × List Event
  | o, [] => (o, [])
  | o, (lang, rc) :: rest =>
    let r := if rc.managed then o.start_runtime env lang rc else (o, [])
    let r2 := Orchestrator.startRuntimesGo env r.1 rest
    (r2.1, r.2 ++ r2.2)

/-- Orchestrator.start (orchestrator.py lines 74-91). -/
def Orchestrator.start (o : Orchestrator) (env : Env) : Orchestrator × List Event :=
  if o.started then (o, [])
  else
    let r1 := if o.config.sync.managed then o.start_sync env else (o, [])
    let r2 := Orchestrator.startRuntimesGo env r1.1 o.config.runtimes
    ({ r2.1 with started := true }, r1.2 ++ r2.2)

/-- Orchestrator.start_monitor (orchestrator.py lines 167-214): the monitor
name is tracked in the monitors dict only when the process reached running. -/
def Orchestrator.start_monitor (o : Orchestrator) (env : Env) (doc_name : String) :
    Bool × Orchestrator × List Event :=
  if ¬o.config.monitor.managed then (false, o, [])
  else if (dictGet o.monitors doc_name).isSome then (true, o, [])
  else if ¬env.pathExists o.config.monitor.package_path then (false, o, [])
  else
    let process_name := "monitor:" ++ doc_name
    let r := o.processes.start env process_name o.config.monitor.package_path
    if r.1 = ProcStatus.running then
      (true,
       { o with processes := r.2.1, monitors := dictSet o.monitors doc_name process_name },
       r.2.2)
    else
      (false, { o with processes := r.2.1 }, r.2.2)

/-- Orchestrator.stop_monitor (orchestrator.py lines 216-234): Python
truthiness makes both a missing entry and an empty-string name a no-op
success; otherwise the tracked process is stopped and the entry removed. -/
def Orchestrator.stop_monitor (o : Orchestrator) (doc_name : String) :
    Bool × Orchestrator × List Event :=
  match dictGet o.monitors doc_name with
  | none => (true, o, [])
  | some process_name =>
    if process_name = "" then (true, o, [])
    else
      let r := o.processes.stop process_name
      if r.1 then
        (r.1, { o with processes := r.2.1, monitors := dictDel o.monitors doc_name }, r.2.2)
      else
        (r.1, { o with processes := r.2.1 }, r.2.2)

/-- Orchestrator.is_monitor_running (orchestrator.py lines 240-243). -/
def Orchestrator.is_monitor_running (o : Orchestrator) (doc_name : String) : Bool :=
  match dictGet o.monitors doc_name with
  | none => false
  | some process_name => o.processes.is_running process_name

/-- The loop over a snapshot of monitor keys in Orchestrator.stop
(orchestrator.py lines 101-102). -/
def Orchestrator.stopMonitorsGo :
    Orchestrator → List String → Orchestrator × List Event
  | o, [] => (o, [])
  | o, d :: ds =>
    let r := o.stop_monitor d
    let r2 := Orchestrator.stopMonitorsGo r.2.1 ds
    (r2.1, r.2.2 ++ r2.2)

/-- Orchestrator.stop (orchestrator.py lines 93-108): stop every monitor,
then stop all tracked processes; sessions and ports are not touched. -/
def Orchestrator.stop (o : Orchestrator) : Orchestrator × List Event :=
  if ¬o.started then (o, [])
  else
    let r1 := Orchestrator.stopMonitorsGo o (dictKeys o.monitors)
    let r2 := r1.1.processes.stop_all
    ({ r1.1 with processes := r2.1, started := false }, r1.2 ++ r2.2)

/-- Orchestrator.destroy_session (orchestrator.py lines 366-393): stop the
dedicated runtime (when the field is truthy), then release its port (when
that field is truthy), then stop the monitor (when that field is truthy),
then remove the SessionInfo. -/
def Orchestrator.destroy_session (o : Orchestrator) (doc_name : String) :
    Bool × Orchestrator × List Event :=
  match dictGet o.sessions doc_name with
  | none => (true, o, [])
  | some session =>
    let step1 : Orchestrator × List Event :=
      match session.runtime_process with
      | none => (o, [])
      | some rp =>
        if rp = "" then (o, [])
        else
          let r := o.processes.stop rp
          let pr : PortAllocator × List Event :=
            match session.runtime_port with
            | none => (o.port_allocator, [])
            | some p =>
              if p = 0 then (o.port_allocator, [])
              else (o.port_allocator.release p, [Event.releasePort p])
          ({ o with processes := r.2.1, port_allocator := pr.1 }, r.2.2 ++ pr.2)
    let step2 : Orchestrator × List Event :=
      match session.monitor_process with
      | none => (step1.1, [])
      | some mp =>
        if mp = "" then (step1.1, [])
        else
          let r := step1.1.stop_monitor doc_name
          (r.2.1, r.2.2)
    (true, { step2.1 with sessions := dictDel step2.1.sessions doc_name },
     step1.2 ++ step2.2)

/-- The session-construction body of Orchestrator.create_session
(orchestrator.py lines 310-364), reached when no session survives the
existing-session check: start the monitor when managed and record whatever
name is then tracked; in dedicated mode allocate a port (none embeds the
propagated RuntimeError on exhaustion) and start the runtime when its
package path exists, releasing the port immediately when it does not; in
shared mode bind the shared runtime url when configured. -/
def Orchestrator.create_session_fresh (o : Orchestrator) (env : Env)
    (doc_name python : String) : Option (SessionInfo × Orchestrator × List Event) :=
  let rm : Orchestrator × List Event :=
    if o.config.monitor.managed then
      let r := o.start_monitor env doc_name
      (r.2.1, r.2.2)
    else (o, [])
  let o1 := rm.1
  let session0 : SessionInfo :=
    { doc := doc_name
      monitor_process :=
        if o.config.monitor.managed then dictGet o1.monitors doc_name else none }
  if python = "dedicated" then
    match o1.port_allocator.allocate with
    | none => none
    | some (port, pa1) =>
      let runtime_url := "http://localhost:" ++ toString port ++ "/mrp/v1"
      let process_name := "python:" ++ doc_name
      let package_path := o.config.python_package_path
      if env.pathExists package_path then
        let r := o1.processes.start env process_name package_path
        let session : SessionInfo :=
          { session0 with
              runtime_process := some process_name
              runtime_url := some runtime_url
              runtime_port := some port
              dedicated_runtime := true }
        some (session,
          { o1 with
              processes := r.2.1
              port_allocator := pa1
              sessions := dictSet o1.sessions doc_name session },
          rm.2 ++ [Event.allocPort port] ++ r.2.2)
      else
        let pa2 := pa1.release port
        some (session0,
          { o1 with
              port_allocator := pa2
              sessions := dictSet o1.sessions doc_name session0 },
          rm.2 ++ [Event.allocPort port, Event.releasePort port])
  else
    let session : SessionInfo :=
      match dictGet o.config.runtimes "python" with
      | some pc => { session0 with runtime_url := some pc.url, dedicated_runtime := false }
      | none => session0
    some (session,
      { o1 with sessions := dictSet o1.sessions doc_name session },
      rm.2)

/-- Orchestrator.create_session (orchestrator.py lines 286-364): an existing
session with the requested binding mode is returned unchanged; an existing
session with the other mode is destroyed in full before the fresh creation
runs. -/
def Orchestrator.create_session (o : Orchestrator) (env : Env)
    (doc_name python : String) : Option (SessionInfo × Orchestrator × List Event) :=
  match dictGet o.sessions doc_name with
  | some session =>
    if (python == "dedicated") != session.dedicated_runtime then
      let rd := o.destroy_session doc_name
      match rd.2.1.create_session_fresh env doc_name python with
      | some (s, o2, evs) => some (s, o2, rd.2.2 ++ evs)
      | none => none
    else
      some (session, o, [])
  | none => o.create_session_fresh env doc_name python

/-- Orchestrator.get_session (orchestrator.py lines 395-397). -/
def Orchestrator.get_session (o : Orchestrator) (doc_name : String) : Option SessionInfo :=
  dictGet o.sessions doc_name

/-- The allocator of the spec's scenario: range [9000, 9003), nothing reserved. -/
def demoAllocator : PortAllocator := ⟨9000, 3, ∅⟩

/-- The port returned by an allocate call, if any. -/
def allocPort? (pa : PortAllocator) : Option Nat :=
  (pa.allocate).map Prod.fst

/-- The allocator state after an allocate call (unchanged when it fails). -/
def allocNext (pa : PortAllocator) : PortAllocator :=
  match pa.allocate with
  | some r => r.2
  | none => pa

/-- n successive allocate calls with no intervening release, collecting the
returned ports; none when any of them hits exhaustion. -/
def allocSeq (pa : PortAllocator) : Nat → Option (List Nat × PortAllocator)
  | 0 => some ([], pa)
  | n + 1 =>
    match pa.allocate with
    | none => none
    | some (p, pa') =>
      match allocSeq pa' n with
      | some (ps, pa'') => some (p :: ps, pa'')
      | none => none

/-- The set of ports in the configured range. -/
def PortAllocator.rangeSet (pa : PortAllocator) : Finset Nat :=
  (Finset.range pa.max_ports).image (fun k => pa.base_port + k)

/-! ### Concrete scenarios used by counterexamples and witnesses -/

/-- An environment where every path exists and every process reaches its
readiness marker. -/
def allEnv : Env :=
  { pathExists := fun _ => true, startOk := fun _ => true }

/-- An environment where every path exists but no monitor process ever
reaches its readiness marker. -/
def monitorFailEnv : Env :=
  { pathExists := fun _ => true,
    startOk := fun n => decide ¬(n = "monitor:doc") }

/-- An environment where the python runtime package directory is missing
and everything else is fine. -/
def noPyEnv : Env :=
  { pathExists := fun p => decide ¬(p = "/pkg/mrmd-python"), startOk := fun _ => true }

/-- A development-style configuration: nothing auto-managed except what each
scenario needs; the python runtime is configured but not auto-started. -/
def demoConfig : OrchestratorConfig :=
  { sync := { managed := false, package_path := "/pkg/mrmd-sync", docs_dir := "/docs",
              port := 8765, url := "ws://localhost:8765" }
    runtimes := [("python", { managed := false, package_path := "/pkg/mrmd-python",
                              port := 8000, url := "http://localhost:8000/mrp/v1" })]
    monitor := { managed := false, package_path := "/pkg/mrmd-monitor" }
    find_packages_dir := "/pkg" }

/-- demoConfig with managed monitors. -/
def demoConfigMon : OrchestratorConfig :=
  { demoConfig with monitor := { managed := true, package_path := "/pkg/mrmd-monitor" } }

/-- Started orchestrator over demoConfig. -/
def c1AfterStart : Orchestrator :=
  ((Orchestrator.init demoConfig).start allEnv).1

/-- c1AfterStart after creating a dedicated session for doc. -/
def c1AfterCreate : Orchestrator :=
  match c1AfterStart.create_session allEnv "doc" "dedicated" with
  | some r => r.2.1
  | none => c1AfterStart

/-- The state after a full shutdown of c1AfterCreate. -/
def c1Final : Orchestrator :=
  (c1AfterCreate.stop).1

/-- The session produced by a shared create_session whose managed monitor
fails to start. -/
def c2Result : Option (SessionInfo × Orchestrator × List Event) :=
  (Orchestrator.init demoConfigMon).create_session monitorFailEnv "doc" "shared"

/-- The session produced by a dedicated create_session whose runtime package
directory is missing. -/
def c10Result : Option (SessionInfo × Orchestrator × List Event) :=
  (Orchestrator.init demoConfig).create_session noPyEnv "doc" "dedicated"

/-- The SessionInfo stored by the failed-monitor run. -/
def c2Session : SessionInfo :=
  match c2Result with
  | some r => r.1
  | none => { doc := "" }

/-- The orchestrator state after the failed-monitor run. -/
def c2State : Orchestrator :=
  match c2Result with
  | some r => r.2.1
  | none => Orchestrator.init demoConfigMon

/-- A fully populated dedicated session for witnesses. -/
def wSession : SessionInfo :=
  { doc := "doc"
    monitor_process := some "monitor:doc"
    runtime_process := some "python:doc"
    runtime_url := some "http://localhost:8001/mrp/v1"
    runtime_port := some 8001
    dedicated_runtime := true }

/-- A second dedicated session, owned by another document. -/
def wSession2 : SessionInfo :=
  { doc := "other"
    monitor_process := some "monitor:other"
    runtime_process := some "python:other"
    runtime_url := some "http://localhost:8002/mrp/v1"
    runtime_port := some 8002
    dedicated_runtime := true }

/-- A running orchestrator owning two dedicated sessions, for witnesses. -/
def wOrch : Orchestrator :=
  { config := demoConfigMon
    processes := ⟨[("python:doc", ProcStatus.running), ("monitor:doc", ProcStatus.running),
                   ("python:other", ProcStatus.running), ("monitor:other", ProcStatus.running)]⟩
    monitors := [("doc", "monitor:doc"), ("other", "monitor:other")]
    sessions := [("doc", wSession), ("other", wSession2)]
    port_allocator := ⟨8001, 100, {8002, 8001}⟩
    started := true }

/-! ### Lemmas about association lists -/

theorem dictGet_dictSet_self {α : Type} (d : List (String × α)) (k : String) (v : α) :
    dictGet (dictSet d k v) k = some v := by
  induction d with
  | nil => simp [dictGet, dictSet]
  | cons kv t ih =>
    by_cases h : kv.1 = k
    · simp [dictGet, dictSet, h]
    · simp [dictGet, dictSet, h, ih]

theorem dictGet_dictSet_ne {α : Type} (d : List (String × α)) (k k' : String) (v : α)
    (h : k' ≠ k) : dictGet (dictSet d k v) k' = dictGet d k' := by
  induction d with
  | nil => simp [dictGet, dictSet, Ne.symm h]
  | cons kv t ih =>
    by_cases hk : kv.1 = k
    · have h1 : dictSet (kv :: t) k v = (k, v) :: t := by simp [dictSet, hk]
      have h2 : kv.1 ≠ k' := by rw [hk]; exact Ne.symm h
      rw [h1]
      simp [dictGet, Ne.symm h, h2]
    · simp only [dictSet, if_neg hk, dictGet]
      by_cases hk' : kv.1 = k'
      · simp [hk']
      · simp [hk', ih]

theorem dictGet_dictDel_self {α : Type} (d : List (String × α)) (k : String) :
    dictGet (dictDel d k) k = none := by
  induction d with
  | nil => simp [dictGet, dictDel]
  | cons kv t ih =>
    by_cases h : kv.1 = k
    · simp [dictDel, h, ih]
    · simp [dictDel, dictGet, h, ih]

theorem dictGet_dictDel_ne {α : Type} (d : List (String × α)) (k k' : String)
    (h : k' ≠ k) : dictGet (dictDel d k) k' = dictGet d k' := by
  induction d with
  | nil => simp [dictDel]
  | cons kv t ih =>
    by_cases hk : kv.1 = k
    · rw [show dictDel (kv :: t) k = dictDel t k by simp [dictDel, hk], ih]
      have : kv.1 ≠ k' := by rw [hk]; exact Ne.symm h
      simp [dictGet, this]
    · simp only [dictDel, if_neg hk, dictGet]
      by_cases hk' : kv.1 = k'
      · simp [hk']
      · simp [hk', ih]

theorem dictGet_dictDel_none {α : Type} {d : List (String × α)} {x : String}
    (h : dictGet d x = none) (k : String) : dictGet (dictDel d k) x = none := by
  by_cases hk : x = k
  · rw [hk]; exact dictGet_dictDel_self d k
  · rw [dictGet_dictDel_ne d k x hk]; exact h

theorem dictDel_of_dictGet_none {α : Type} {d : List (String × α)} {k : String}
    (h : dictGet d k = none) : dictDel d k = d := by
  induction d with
  | nil => rfl
  | cons kv t ih =>
    simp only [dictGet] at h
    by_cases hk : kv.1 = k
    · rw [if_pos hk] at h; cases h
    · rw [if_neg hk] at h
      simp [dictDel, hk, ih h]

theorem mem_dictDel {α : Type} {d : List (String × α)} {k : String} {kv : String × α}
    (h : kv ∈ dictDel d k) : kv ∈ d := by
  induction d with
  | nil => cases h
  | cons kv' t ih =>
    by_cases hk : kv'.1 = k
    · rw [show dictDel (kv' :: t) k = dictDel t k by simp [dictDel, hk]] at h
      exact List.mem_cons_of_mem _ (ih h)
    · rw [show dictDel (kv' :: t) k = kv' :: dictDel t k by simp [dictDel, hk]] at h
      rcases List.mem_cons.mp h with h | h
      · rw [h]; exact List.mem_cons_self _ _
      · exact List.mem_cons_of_mem _ (ih h)

theorem key_ne_of_mem_dictDel {α : Type} {d : List (String × α)} {k : String}
    {kv : String × α} (h : kv ∈ dictDel d k) : kv.1 ≠ k := by
  induction d with
  | nil => cases h
  | cons kv' t ih =>
    by_cases hk : kv'.1 = k
    · rw [show dictDel (kv' :: t) k = dictDel t k by simp [dictDel, hk]] at h
      exact ih h
    · rw [show dictDel (kv' :: t) k = kv' :: dictDel t k by simp [dictDel, hk]] at h
      rcases List.mem_cons.mp h with h | h
      · rw [h]; exact hk
      · exact ih h

theorem foldl_dictDel_nil {α : Type} (ks : List String) (t : List (String × α))
    (h : ∀ kv ∈ t, kv.1 ∈ ks) : List.foldl dictDel t ks = [] := by
  induction ks generalizing t with
  | nil =>
    cases t with
    | nil => rfl
    | cons kv t' => exact absurd (h kv (List.mem_cons_self _ _)) (by simp)
  | cons k ks ih =>
    simp only [List.foldl]
    apply ih
    intro kv hkv
    have hkey := h kv (mem_dictDel hkv)
    rcases List.mem_cons.mp hkey with hkey | hkey
    · exact absurd hkey (key_ne_of_mem_dictDel hkv)
    · exact hkey

theorem dictGet_mem {α : Type} {d : List (String × α)} {k : String} {v : α}
    (h : dictGet d k = some v) : (k, v) ∈ d := by
  induction d with
  | nil => cases h
  | cons kv t ih =>
    simp only [dictGet] at h
    by_cases hk : kv.1 = k
    · rw [if_pos hk] at h
      injection h with h
      exact List.mem_cons.mpr (Or.inl (by rw [← hk, ← h]))
    · rw [if_neg hk] at h
      exact List.mem_cons_of_mem _ (ih h)

/-! ### Lemmas about the process supervisor model -/

theorem ProcessManager.stop_success (pm : ProcessManager) (n : String) :
    (pm.stop n).1 = true := by
  unfold ProcessManager.stop
  cases dictGet pm.table n <;> rfl

theorem ProcessManager.stop_table (pm : ProcessManager) (n : String) :
    ((pm.stop n).2.1).table = dictDel pm.table n := by
  unfold ProcessManager.stop
  cases h : dictGet pm.table n with
  | none => exact (dictDel_of_dictGet_none h).symm
  | some st => rfl

theorem ProcessManager.stop_events (pm : ProcessManager) (n x : String)
    (h : Event.stopProc x ∈ (pm.stop n).2.2) : x = n := by
  unfold ProcessManager.stop at h
  cases hg : dictGet pm.table n with
  | none => rw [hg] at h; cases h
  | some st =>
    rw [hg] at h
    simp only [List.mem_singleton] at h
    cases h
    rfl

theorem ProcessManager.stopAllGo_table (ns : List String) (pm : ProcessManager)
    (acc : List Event) : ((pm.stopAllGo ns acc).1).table = List.foldl dictDel pm.table ns := by
  induction ns generalizing pm acc with
  | nil => rfl
  | cons n ns ih =>
    show ((((pm.stop n).2.1).stopAllGo ns (acc ++ (pm.stop n).2.2)).1).table = _
    rw [ih, ProcessManager.stop_table]
    rfl

theorem ProcessManager.stop_all_table (pm : ProcessManager) :
    ((pm.stop_all).1).table = [] := by
  unfold ProcessManager.stop_all
  rw [ProcessManager.stopAllGo_table]
  exact foldl_dictDel_nil _ _ (fun kv hkv => List.mem_map.mpr ⟨kv, hkv, rfl⟩)

/-! ### Frame lemmas about the orchestrator operations -/

theorem Orchestrator.start_monitor_frame (o : Orchestrator) (env : Env) (d : String) :
    (o.start_monitor env d).2.1.sessions = o.sessions ∧
    (o.start_monitor env d).2.1.port_allocator = o.port_allocator ∧
    (o.start_monitor env d).2.1.config = o.config ∧
    (o.start_monitor env d).2.1.started = o.started := by
  unfold Orchestrator.start_monitor
  dsimp only
  repeat' split
  all_goals exact ⟨rfl, rfl, rfl, rfl⟩

theorem Orchestrator.stop_monitor_frame (o : Orchestrator) (d : String) :
    (o.stop_monitor d).2.1.sessions = o.sessions ∧
    (o.stop_monitor d).2.1.port_allocator = o.port_allocator ∧
    (o.stop_monitor d).2.1.config = o.config ∧
    (o.stop_monitor d).2.1.started = o.started := by
  unfold Orchestrator.stop_monitor
  dsimp only
  repeat' split
  all_goals exact ⟨rfl, rfl, rfl, rfl⟩

theorem Orchestrator.stop_monitor_success (o : Orchestrator) (d : String) :
    (o.stop_monitor d).1 = true := by
  unfold Orchestrator.stop_monitor
  cases hg : dictGet o.monitors d with
  | none => rfl
  | some pname =>
    dsimp only
    by_cases he : pname = ""
    · rw [if_pos he]
    · rw [if_neg he]
      split
      · exact ProcessManager.stop_success _ _
      · exact ProcessManager.stop_success _ _

theorem Orchestrator.stop_monitor_stops (o : Orchestrator) (d x : String)
    (h : Event.stopProc x ∈ (o.stop_monitor d).2.2) :
    dictGet o.monitors d = some x := by
  unfold Orchestrator.stop_monitor at h
  cases hg : dictGet o.monitors d with
  | none => rw [hg] at h; cases h
  | some pname =>
    rw [hg] at h
    dsimp only at h
    by_cases he : pname = ""
    · rw [if_pos he] at h; cases h
    · rw [if_neg he] at h
      split at h
      · exact (congrArg some (ProcessManager.stop_events o.processes pname x h)).symm
      · exact (congrArg some (ProcessManager.stop_events o.processes pname x h)).symm

theorem Orchestrator.stop_monitor_monitors (o : Orchestrator) (d : String)
    (h : ∀ kv ∈ o.monitors, kv.2 ≠ "") :
    (o.stop_monitor d).2.1.monitors = dictDel o.monitors d := by
  unfold Orchestrator.stop_monitor
  cases hg : dictGet o.monitors d with
  | none => exact (dictDel_of_dictGet_none hg).symm
  | some pname =>
    dsimp only
    have hne : pname ≠ "" := h (d, pname) (dictGet_mem hg)
    rw [if_neg hne]
    split
    · rfl
    · rename_i hfalse
      exact absurd (ProcessManager.stop_success o.processes pname) hfalse

/-! ### Lemmas about the port allocator -/

theorem PortAllocator.scanFrom_some {pa : PortAllocator} {off fuel port : Nat}
    (h : pa.scanFrom off fuel = some port) :
    ∃ k, k < fuel ∧ port = pa.base_port + off + k ∧ port ∉ pa.allocated ∧
      ∀ j, j < k → pa.base_port + off + j ∈ pa.allocated := by
  induction fuel generalizing off with
  | zero => simp [PortAllocator.scanFrom] at h
  | succ fuel ih =>
    rw [PortAllocator.scanFrom] at h
    by_cases hmem : pa.base_port + off ∈ pa.allocated
    · rw [if_pos hmem] at h
      obtain ⟨k, hk, hp, hnm, hall⟩ := ih h
      refine ⟨k + 1, by omega, by omega, hnm, ?_⟩
      intro j hj
      cases j with
      | zero => simpa using hmem
      | succ j =>
        have hmem2 := hall j (by omega)
        have harith : pa.base_port + (off + 1) + j = pa.base_port + off + (j + 1) := by omega
        rwa [harith] at hmem2
    · rw [if_neg hmem] at h
      injection h with h
      exact ⟨0, by omega, by omega, by rw [← h]; exact hmem, fun j hj => absurd hj (by omega)⟩

theorem PortAllocator.scanFrom_none {pa : PortAllocator} {off fuel : Nat}
    (h : pa.scanFrom off fuel = none) :
    ∀ k, k < fuel → pa.base_port + off + k ∈ pa.allocated := by
  induction fuel generalizing off with
  | zero => intro k hk; exact absurd hk (by omega)
  | succ fuel ih =>
    rw [PortAllocator.scanFrom] at h
    by_cases hmem : pa.base_port + off ∈ pa.allocated
    · rw [if_pos hmem] at h
      intro k hk
      cases k with
      | zero => simpa using hmem
      | succ k =>
        have hmem2 := ih h k (by omega)
        have harith : pa.base_port + (off + 1) + k = pa.base_port + off + (k + 1) := by omega
        rwa [harith] at hmem2
    · rw [if_neg hmem] at h
      cases h

theorem PortAllocator.allocate_some {pa pa' : PortAllocator} {p : Nat}
    (h : pa.allocate = some (p, pa')) :
    p ∉ pa.allocated ∧
    (∃ k, k < pa.max_ports ∧ p = pa.base_port + k) ∧
    (∀ q, (∃ j, j < pa.max_ports ∧ q = pa.base_port + j) → q ∉ pa.allocated → p ≤ q) ∧
    pa'.base_port = pa.base_port ∧ pa'.max_ports = pa.max_ports ∧
    pa'.allocated = insert p pa.allocated := by
  unfold PortAllocator.allocate at h
  cases hscan : pa.scanFrom 0 pa.max_ports with
  | none => rw [hscan] at h; cases h
  | some port =>
    rw [hscan] at h
    injection h with h
    rw [Prod.mk.injEq] at h
    obtain ⟨hport, hpa⟩ := h
    obtain ⟨k, hk, hp, hnm, hall⟩ := PortAllocator.scanFrom_some hscan
    subst hport
    refine ⟨hnm, ⟨k, hk, by omega⟩, ?_, ?_, ?_, ?_⟩
    · intro q ⟨j, hj, hq⟩ hqfree
      by_cases hjk : j < k
      · exact absurd (by have := hall j hjk; rwa [show pa.base_port + 0 + j = pa.base_port + j by omega] at this) (hq ▸ hqfree)
      · omega
    · rw [← hpa]
    · rw [← hpa]
    · rw [← hpa]

theorem PortAllocator.allocate_none {pa : PortAllocator}
    (h : pa.allocate = none) :
    ∀ k, k < pa.max_ports → pa.base_port + k ∈ pa.allocated := by
  unfold PortAllocator.allocate at h
  cases hscan : pa.scanFrom 0 pa.max_ports with
  | none =>
    intro k hk
    have := PortAllocator.scanFrom_none hscan k hk
    rwa [show pa.base_port + 0 + k = pa.base_port + k by omega] at this
  | some port => rw [hscan] at h; cases h

theorem PortAllocator.allocate_eq_none_of_full {pa : PortAllocator}
    (h : ∀ k, k < pa.max_ports → pa.base_port + k ∈ pa.allocated) :
    pa.allocate = none := by
  unfold PortAllocator.allocate
  cases hscan : pa.scanFrom 0 pa.max_ports with
  | none => rfl
  | some port =>
    exfalso
    obtain ⟨k, hk, hp, hnm, _⟩ := PortAllocator.scanFrom_some hscan
    exact hnm (by rw [hp, show pa.base_port + 0 + k = pa.base_port + k by omega]; exact h k hk)

theorem PortAllocator.allocate_isSome {pa : PortAllocator}
    (h : ∃ k, k < pa.max_ports ∧ pa.base_port + k ∉ pa.allocated) :
    (pa.allocate).isSome := by
  cases halloc : pa.allocate with
  | some r => rfl
  | none =>
    obtain ⟨k, hk, hfree⟩ := h
    exact absurd (PortAllocator.allocate_none halloc k hk) hfree

theorem PortAllocator.card_rangeSet (pa : PortAllocator) :
    pa.rangeSet.card = pa.max_ports := by
  unfold PortAllocator.rangeSet
  rw [Finset.card_image_of_injective _ (fun a b hab => Nat.add_left_cancel hab : Function.Injective (fun k => pa.base_port + k))]
  exact Finset.card_range _

theorem allocSeq_nodup {pa : PortAllocator} {n : Nat} {ps : List Nat} {pa' : PortAllocator}
    (h : allocSeq pa n = some (ps, pa')) :
    ps.Nodup ∧ ∀ q ∈ ps, q ∉ pa.allocated := by
  induction n generalizing pa ps pa' with
  | zero =>
    unfold allocSeq at h
    injection h with h
    rw [Prod.mk.injEq] at h
    rw [← h.1]
    simp
  | succ n ih =>
    unfold allocSeq at h
    cases halloc : pa.allocate with
    | none => rw [halloc] at h; cases h
    | some r =>
      obtain ⟨p, pa1⟩ := r
      rw [halloc] at h
      dsimp only at h
      cases hseq : allocSeq pa1 n with
      | none => rw [hseq] at h; cases h
      | some r2 =>
        obtain ⟨ps1, pa2⟩ := r2
        rw [hseq] at h
        dsimp only at h
        injection h with h
        rw [Prod.mk.injEq] at h
        obtain ⟨hps, _⟩ := h
        obtain ⟨hnodup, hfresh⟩ := ih hseq
        obtain ⟨hpfree, _, _, _, _, hins⟩ := PortAllocator.allocate_some halloc
        rw [← hps]
        constructor
        · refine List.nodup_cons.mpr ⟨?_, hnodup⟩
          intro hpmem
          have := hfresh p hpmem
          rw [hins] at this
          exact this (Finset.mem_insert_self p _)
        · intro q hq
          rcases List.mem_cons.mp hq with hq | hq
          · rw [hq]; exact hpfree
          · have := hfresh q hq
            rw [hins] at this
            exact fun hmem => this (Finset.mem_insert_of_mem hmem)

theorem allocSeq_isSome {pa : PortAllocator} {n : Nat}
    (h : n + (pa.rangeSet ∩ pa.allocated).card ≤ pa.max_ports) :
    (allocSeq pa n).isSome := by
  induction n generalizing pa with
  | zero => rfl
  | succ n ih =>
    have hsub : pa.rangeSet ∩ pa.allocated ⊆ pa.rangeSet := Finset.inter_subset_left
    have hcardlt : (pa.rangeSet ∩ pa.allocated).card < pa.rangeSet.card := by
      rw [PortAllocator.card_rangeSet]; omega
    have hex : ∃ x ∈ pa.rangeSet, x ∉ pa.rangeSet ∩ pa.allocated := by
      by_contra hno
      push_neg at hno
      have hsub2 : pa.rangeSet ⊆ pa.rangeSet ∩ pa.allocated := fun x hx => hno x hx
      have := Finset.card_le_card hsub2
      omega
    obtain ⟨x, hxr, hxn⟩ := hex
    have hxfree : x ∉ pa.allocated := fun hmem => hxn (Finset.mem_inter.mpr ⟨hxr, hmem⟩)
    obtain ⟨k, hk, hxk⟩ : ∃ k, k < pa.max_ports ∧ x = pa.base_port + k := by
      obtain ⟨k, hk, hxk⟩ := Finset.mem_image.mp hxr
      exact ⟨k, Finset.mem_range.mp hk, hxk.symm⟩
    have hsome := PortAllocator.allocate_isSome ⟨k, hk, by rw [← hxk]; exact hxfree⟩
    obtain ⟨⟨p, pa1⟩, halloc⟩ := Option.isSome_iff_exists.mp hsome
    obtain ⟨hpfree, _, _, hbase, hmax, hins⟩ := PortAllocator.allocate_some halloc
    have hrange1 : pa1.rangeSet = pa.rangeSet := by
      unfold PortAllocator.rangeSet
      rw [hbase, hmax]
    have hcard1 : (pa1.rangeSet ∩ pa1.allocated).card ≤ (pa.rangeSet ∩ pa.allocated).card + 1 := by
      rw [hrange1, hins]
      calc (pa.rangeSet ∩ insert p pa.allocated).card
          ≤ (insert p (pa.rangeSet ∩ pa.allocated)).card := by
            apply Finset.card_le_card
            intro y hy
            obtain ⟨hy1, hy2⟩ := Finset.mem_inter.mp hy
            rcases Finset.mem_insert.mp hy2 with hy2 | hy2
            · rw [hy2]; exact Finset.mem_insert_self _ _
            · exact Finset.mem_insert_of_mem (Finset.mem_inter.mpr ⟨hy1, hy2⟩)
        _ ≤ (pa.rangeSet ∩ pa.allocated).card + 1 := Finset.card_insert_le _ _
    have hih := @ih pa1 (by rw [hmax] at *; omega)
    unfold allocSeq
    rw [halloc]
    dsimp only
    obtain ⟨⟨ps, pa2⟩, hseq⟩ := Option.isSome_iff_exists.mp hih
    rw [hseq]
    rfl

/-! ### Shutdown lemmas -/

theorem Orchestrator.stopMonitorsGo_frame (ds : List String) (o : Orchestrator) :
    (Orchestrator.stopMonitorsGo o ds).1.sessions = o.sessions ∧
    (Orchestrator.stopMonitorsGo o ds).1.port_allocator = o.port_allocator ∧
    (Orchestrator.stopMonitorsGo o ds).1.config = o.config ∧
    (Orchestrator.stopMonitorsGo o ds).1.started = o.started := by
  induction ds generalizing o with
  | nil => exact ⟨rfl, rfl, rfl, rfl⟩
  | cons d ds ih =>
    obtain ⟨h1, h2, h3, h4⟩ := ih ((o.stop_monitor d).2.1)
    obtain ⟨g1, g2, g3, g4⟩ := Orchestrator.stop_monitor_frame o d
    exact ⟨h1.trans g1, h2.trans g2, h3.trans g3, h4.trans g4⟩

theorem Orchestrator.stopMonitorsGo_monitors (ds : List String) (o : Orchestrator)
    (h : ∀ kv ∈ o.monitors, kv.2 ≠ "") :
    (Orchestrator.stopMonitorsGo o ds).1.monitors = List.foldl dictDel o.monitors ds := by
  induction ds generalizing o with
  | nil => rfl
  | cons d ds ih =>
    have hstep := Orchestrator.stop_monitor_monitors o d h
    have hpres : ∀ kv ∈ (o.stop_monitor d).2.1.monitors, kv.2 ≠ "" := by
      intro kv hkv
      rw [hstep] at hkv
      exact h kv (mem_dictDel hkv)
    calc (Orchestrator.stopMonitorsGo o (d :: ds)).1.monitors
        = (Orchestrator.stopMonitorsGo (o.stop_monitor d).2.1 ds).1.monitors := rfl
      _ = List.foldl dictDel (o.stop_monitor d).2.1.monitors ds := ih _ hpres
      _ = List.foldl dictDel (dictDel o.monitors d) ds := by rw [hstep]
      _ = List.foldl dictDel o.monitors (d :: ds) := rfl

/-! ### Claim C1 -/

/-- C1 counterexample: in a concrete run that starts the orchestrator,
creates one dedicated session (which reserves port 8001) and then performs
the full shutdown Orchestrator.stop, the process table is empty but the
port-reservation set still holds 8001, so the claim that both are empty
after a full shutdown is false on the code: stop never destroys sessions
and never releases ports. -/
theorem C1_counterexample :
    c1AfterCreate.started = true ∧
    c1AfterCreate.sessions ≠ [] ∧
    c1Final.processes.table = [] ∧
    c1Final.port_allocator.allocated = {8001} ∧
    ¬(c1Final.processes.table = [] ∧ c1Final.port_allocator.allocated = ∅) := by
  decide

/-- C1 (amended): after Orchestrator.stop on a started orchestrator, every
monitor is stopped and the process table is empty, but sessions are not
destroyed: the session table and the port-reservation set are left exactly
as they were, so ports of dedicated sessions remain reserved. -/
theorem C1_full_shutdown_state (o : Orchestrator) (h : o.started = true)
    (hm : ∀ kv ∈ o.monitors, kv.2 ≠ "") :
    (o.stop).1.processes.table = [] ∧
    (o.stop).1.monitors = [] ∧
    (o.stop).1.sessions = o.sessions ∧
    (o.stop).1.port_allocator = o.port_allocator ∧
    (o.stop).1.started = false := by
  have hcond : ¬¬(o.started = true) := by rw [h]; exact not_not_intro rfl
  unfold Orchestrator.stop
  rw [if_neg hcond]
  dsimp only
  refine ⟨?_, ?_, ?_, ?_, rfl⟩
  · exact ProcessManager.stop_all_table _
  · rw [Orchestrator.stopMonitorsGo_monitors _ _ hm]
    exact foldl_dictDel_nil _ _ (fun kv hkv => List.mem_map.mpr ⟨kv, hkv, rfl⟩)
  · exact (Orchestrator.stopMonitorsGo_frame _ _).1
  · exact (Orchestrator.stopMonitorsGo_frame _ _).2.1

/-- C1 witness: the amended theorem applied to the concrete run of the
counterexample scenario. -/
theorem C1_full_shutdown_state_witness :
    (c1AfterCreate.stop).1.processes.table = [] ∧
    (c1AfterCreate.stop).1.monitors = [] ∧
    (c1AfterCreate.stop).1.sessions = c1AfterCreate.sessions ∧
    (c1AfterCreate.stop).1.port_allocator = c1AfterCreate.port_allocator ∧
    (c1AfterCreate.stop).1.started = false :=
  C1_full_shutdown_state c1AfterCreate (by decide) (by decide)

/-! ### Claim C3 -/

/-- C3: allocate scans the configured range in ascending order and returns
the lowest port not currently reserved, marking it reserved, and fails
(raises) exactly when every port in range is reserved; concretely, for the
allocator with range [9000, 9003), three sequential allocate calls return
9000, 9001, 9002, a fourth fails, and after release 9001 the next allocate
returns 9001. -/
theorem C3_allocate_scenario :
    (∀ (pa pa' : PortAllocator) (p : Nat), pa.allocate = some (p, pa') →
        p ∉ pa.allocated ∧ pa'.allocated = insert p pa.allocated ∧
        (∀ q, (∃ j, j < pa.max_ports ∧ q = pa.base_port + j) → q ∉ pa.allocated → p ≤ q)) ∧
    (∀ pa : PortAllocator, (∀ k, k < pa.max_ports → pa.base_port + k ∈ pa.allocated) →
        pa.allocate = none) ∧
    allocPort? demoAllocator = some 9000 ∧
    allocPort? (allocNext demoAllocator) = some 9001 ∧
    allocPort? (allocNext (allocNext demoAllocator)) = some 9002 ∧
    allocPort? (allocNext (allocNext (allocNext demoAllocator))) = none ∧
    allocPort? ((allocNext (allocNext (allocNext demoAllocator))).release 9001) = some 9001 := by
  refine ⟨?_, ?_, ?_, ?_, ?_, ?_, ?_⟩
  · intro pa pa' p h
    obtain ⟨h1, _, h3, _, _, h6⟩ := PortAllocator.allocate_some h
    exact ⟨h1, h6, h3⟩
  · intro pa h
    exact PortAllocator.allocate_eq_none_of_full h
  · decide
  · decide
  · decide
  · decide
  · decide

/-- C3 witness: the general components of the scenario theorem applied to
the concrete demo allocator and its first allocation. -/
theorem C3_allocate_scenario_witness :
    (9000 ∉ demoAllocator.allocated ∧
      (⟨9000, 3, {9000}⟩ : PortAllocator).allocated = insert 9000 demoAllocator.allocated ∧
      (∀ q, (∃ j, j < demoAllocator.max_ports ∧ q = demoAllocator.base_port + j) →
          q ∉ demoAllocator.allocated → 9000 ≤ q)) ∧
    (⟨9000, 3, {9002, 9001, 9000}⟩ : PortAllocator).allocate = none :=
  ⟨C3_allocate_scenario.1 demoAllocator ⟨9000, 3, {9000}⟩ 9000 (by decide),
   C3_allocate_scenario.2.1 ⟨9000, 3, {9002, 9001, 9000}⟩ (by decide)⟩

/-! ### Claim C4 -/

/-- C4: no port is ever reserved twice; for any starting allocator state
(hence after any sequence of allocate and release operations), the ports
returned by n successive allocate calls with no intervening release are
pairwise distinct whenever all n calls succeed, and from a fresh allocator
with range size at least n all n calls do succeed. -/
theorem C4_port_uniqueness :
    (∀ (pa : PortAllocator) (n : Nat) (ps : List Nat) (pa' : PortAllocator),
        allocSeq pa n = some (ps, pa') → ps.Nodup) ∧
    (∀ (pa : PortAllocator), pa.allocated = ∅ → ∀ n, n ≤ pa.max_ports →
        (allocSeq pa n).isSome) := by
  constructor
  · intro pa n ps pa' h
    exact (allocSeq_nodup h).1
  · intro pa hempty n hn
    apply allocSeq_isSome
    rw [hempty]
    simpa using hn

/-- C4 witness: both components applied to the demo allocator, checking the
distinctness of two concrete allocations and the success of three. -/
theorem C4_port_uniqueness_witness :
    ([9000, 9001] : List Nat).Nodup ∧ (allocSeq demoAllocator 3).isSome :=
  ⟨C4_port_uniqueness.1 demoAllocator 2 [9000, 9001] ⟨9000, 3, {9001, 9000}⟩ (by rfl),
   C4_port_uniqueness.2 demoAllocator (by rfl) 3 (by decide)⟩

/-! ### Lemmas about destroy_session -/

theorem ProcessManager.stop_events_shape (pm : ProcessManager) (n : String) :
    ∀ e ∈ (pm.stop n).2.2, e = Event.stopProc n := by
  intro e he
  unfold ProcessManager.stop at he
  cases hg : dictGet pm.table n with
  | none => rw [hg] at he; cases he
  | some st =>
    rw [hg] at he
    simpa using he

theorem Orchestrator.stop_monitor_events_shape (o : Orchestrator) (d : String) :
    ∀ e ∈ (o.stop_monitor d).2.2,
      ∃ nm, e = Event.stopProc nm ∧ dictGet o.monitors d = some nm := by
  intro e he
  unfold Orchestrator.stop_monitor at he
  cases hg : dictGet o.monitors d with
  | none => rw [hg] at he; cases he
  | some pname =>
    rw [hg] at he
    dsimp only at he
    by_cases hne : pname = ""
    · rw [if_pos hne] at he; cases he
    · rw [if_neg hne] at he
      split at he
      · exact ⟨pname, ProcessManager.stop_events_shape o.processes pname e he, rfl⟩
      · exact ⟨pname, ProcessManager.stop_events_shape o.processes pname e he, rfl⟩

theorem Orchestrator.destroy_session_events (o : Orchestrator) (doc : String)
    (sess : SessionInfo) (hs : dictGet o.sessions doc = some sess) :
    ∀ e ∈ (o.destroy_session doc).2.2,
      (∃ n, e = Event.stopProc n ∧
          (sess.runtime_process = some n ∨ dictGet o.monitors doc = some n)) ∨
      (∃ q, e = Event.releasePort q ∧ sess.runtime_port = some q) := by
  intro e he
  unfold Orchestrator.destroy_session at he
  rw [hs] at he
  dsimp only at he
  have hmon : ∀ (o1 : Orchestrator),
      e ∈ (match sess.monitor_process with
           | none => (o1, ([] : List Event))
           | some mp => if mp = "" then (o1, [])
             else ((o1.stop_monitor doc).2.1, (o1.stop_monitor doc).2.2)).2 →
      o1.monitors = o.monitors →
      ∃ n, e = Event.stopProc n ∧ dictGet o.monitors doc = some n := by
    intro o1 he2 hm
    cases hmp : sess.monitor_process with
    | none => rw [hmp] at he2; cases he2
    | some mp =>
      rw [hmp] at he2
      dsimp only at he2
      by_cases hne : mp = ""
      · rw [if_pos hne] at he2; cases he2
      · rw [if_neg hne] at he2
        obtain ⟨nm, hnm, hg⟩ := Orchestrator.stop_monitor_events_shape o1 doc e he2
        exact ⟨nm, hnm, by rw [← hm]; exact hg⟩
  cases hrp : sess.runtime_process with
  | none =>
    rw [hrp] at he
    dsimp only at he
    rcases List.mem_append.mp he with he2 | he2
    · cases he2
    · obtain ⟨n, hn, hg⟩ := hmon _ he2 rfl
      exact Or.inl ⟨n, hn, Or.inr hg⟩
  | some rp =>
    rw [hrp] at he
    dsimp only at he
    by_cases hne : rp = ""
    · rw [if_pos hne] at he
      dsimp only at he
      rcases List.mem_append.mp he with he2 | he2
      · cases he2
      · obtain ⟨n, hn, hg⟩ := hmon _ he2 rfl
        exact Or.inl ⟨n, hn, Or.inr hg⟩
    · rw [if_neg hne] at he
      dsimp only at he
      rcases List.mem_append.mp he with he2 | he2
      · rcases List.mem_append.mp he2 with he3 | he3
        · exact Or.inl ⟨rp, ProcessManager.stop_events_shape o.processes rp e he3, Or.inl rfl⟩
        · cases hp : sess.runtime_port with
          | none => rw [hp] at he3; cases he3
          | some p =>
            rw [hp] at he3
            dsimp only at he3
            by_cases hz : p = 0
            · rw [if_pos hz] at he3; cases he3
            · rw [if_neg hz] at he3
              simp only [List.mem_singleton] at he3
              exact Or.inr ⟨p, he3, rfl⟩
      · obtain ⟨n, hn, hg⟩ := hmon _ he2 rfl
        exact Or.inl ⟨n, hn, Or.inr hg⟩

theorem Orchestrator.destroy_session_sessions (o : Orchestrator) (doc : String)
    (sess : SessionInfo) (hs : dictGet o.sessions doc = some sess) :
    (o.destroy_session doc).2.1.sessions = dictDel o.sessions doc := by
  unfold Orchestrator.destroy_session
  rw [hs]
  dsimp only
  cases hrp : sess.runtime_process with
  | none =>
    cases hmp : sess.monitor_process with
    | none => rfl
    | some mp =>
      dsimp only
      by_cases hne : mp = ""
      · rw [if_pos hne]
      · rw [if_neg hne]
        dsimp only
        rw [(Orchestrator.stop_monitor_frame o doc).1]
  | some rp =>
    dsimp only
    by_cases hrne : rp = ""
    · rw [if_pos hrne]
      cases hmp : sess.monitor_process with
      | none => rfl
      | some mp =>
        dsimp only
        by_cases hne : mp = ""
        · rw [if_pos hne]
        · rw [if_neg hne]
          dsimp only
          rw [(Orchestrator.stop_monitor_frame o doc).1]
    · rw [if_neg hrne]
      cases hmp : sess.monitor_process with
      | none => rfl
      | some mp =>
        dsimp only
        by_cases hne : mp = ""
        · rw [if_pos hne]
        · rw [if_neg hne]
          dsimp only
          rw [(Orchestrator.stop_monitor_frame _ doc).1]

theorem Orchestrator.destroy_session_port_allocator (o : Orchestrator) (doc : String)
    (sess : SessionInfo) (hs : dictGet o.sessions doc = some sess) :
    (o.destroy_session doc).2.1.port_allocator = o.port_allocator ∨
    ∃ p, sess.runtime_port = some p ∧ p ≠ 0 ∧
      (o.destroy_session doc).2.1.port_allocator = o.port_allocator.release p := by
  unfold Orchestrator.destroy_session
  rw [hs]
  dsimp only
  have hmonpa : ∀ (o1 : Orchestrator),
      (match sess.monitor_process with
       | none => (o1, ([] : List Event))
       | some mp => if mp = "" then (o1, [])
         else ((o1.stop_monitor doc).2.1, (o1.stop_monitor doc).2.2)).1.port_allocator
      = o1.port_allocator := by
    intro o1
    cases hmp : sess.monitor_process with
    | none => rfl
    | some mp =>
      dsimp only
      by_cases hne : mp = ""
      · rw [if_pos hne]
      · rw [if_neg hne]
        dsimp only
        exact (Orchestrator.stop_monitor_frame o1 doc).2.1
  cases hrp : sess.runtime_process with
  | none => exact Or.inl (hmonpa o)
  | some rp =>
    dsimp only
    by_cases hrne : rp = ""
    · rw [if_pos hrne]
      exact Or.inl (hmonpa o)
    · rw [if_neg hrne]
      dsimp only
      cases hp : sess.runtime_port with
      | none => exact Or.inl (hmonpa _)
      | some p =>
        dsimp only
        by_cases hz : p = 0
        · rw [if_pos hz]
          exact Or.inl (hmonpa _)
        · rw [if_neg hz]
          exact Or.inr ⟨p, rfl, hz, hmonpa _⟩

theorem Orchestrator.stop_monitor_table_none (o : Orchestrator) (d x : String)
    (h : dictGet o.processes.table x = none) :
    dictGet (o.stop_monitor d).2.1.processes.table x = none := by
  unfold Orchestrator.stop_monitor
  cases hg : dictGet o.monitors d with
  | none => exact h
  | some pname =>
    dsimp only
    by_cases hne : pname = ""
    · rw [if_pos hne]
      exact h
    · rw [if_neg hne]
      split
      · dsimp only
        rw [ProcessManager.stop_table]
        exact dictGet_dictDel_none h pname
      · dsimp only
        rw [ProcessManager.stop_table]
        exact dictGet_dictDel_none h pname

theorem ProcessManager.is_running_eq_false {pm : ProcessManager} {x : String}
    (h : dictGet pm.table x = none) : pm.is_running x = false := by
  unfold ProcessManager.is_running
  rw [h]

theorem PortAllocator.is_allocated_release_self (pa : PortAllocator) (p : Nat) :
    (pa.release p).is_allocated p = false := by
  simp [PortAllocator.is_allocated, PortAllocator.release]

/-! ### Claim C5 -/

/-- C5: when a session owns a dedicated runtime (a truthy runtime process
name and a truthy port), destroy_session stops the runtime process via the
process supervisor strictly before releasing the port: the event trace
begins with the stop of the runtime process immediately followed by the
port release, and in the resulting state the runtime process is not running
and the port is no longer allocated. -/
theorem C5_stop_before_release (o : Orchestrator) (doc rp : String) (p : Nat)
    (sess : SessionInfo)
    (hs : dictGet o.sessions doc = some sess)
    (hrp : sess.runtime_process = some rp) (hrpne : rp ≠ "")
    (hp : sess.runtime_port = some p) (hpne : p ≠ 0)
    (htracked : (dictGet o.processes.table rp).isSome) :
    (∃ rest, (o.destroy_session doc).2.2
        = Event.stopProc rp :: Event.releasePort p :: rest) ∧
    (o.destroy_session doc).2.1.processes.is_running rp = false ∧
    (o.destroy_session doc).2.1.port_allocator.is_allocated p = false := by
  obtain ⟨st, hst⟩ := Option.isSome_iff_exists.mp htracked
  have hstop2 : (o.processes.stop rp).2.2 = [Event.stopProc rp] := by
    unfold ProcessManager.stop
    rw [hst]
  have hnone : dictGet (o.processes.stop rp).2.1.table rp = none := by
    rw [ProcessManager.stop_table]
    exact dictGet_dictDel_self _ _
  unfold Orchestrator.destroy_session
  rw [hs]
  dsimp only
  rw [hrp]
  dsimp only
  rw [if_neg hrpne, hp]
  dsimp only
  rw [if_neg hpne]
  dsimp only
  cases hmp : sess.monitor_process with
  | none =>
    refine ⟨⟨[], by rw [hstop2]; rfl⟩, ?_, ?_⟩
    · exact ProcessManager.is_running_eq_false hnone
    · exact PortAllocator.is_allocated_release_self _ _
  | some mp =>
    dsimp only
    by_cases hmpne : mp = ""
    · rw [if_pos hmpne]
      refine ⟨⟨[], by rw [hstop2]; rfl⟩, ?_, ?_⟩
      · exact ProcessManager.is_running_eq_false hnone
      · exact PortAllocator.is_allocated_release_self _ _
    · rw [if_neg hmpne]
      dsimp only
      refine ⟨⟨_, by rw [hstop2]; rfl⟩, ?_, ?_⟩
      · exact ProcessManager.is_running_eq_false
          (Orchestrator.stop_monitor_table_none _ doc rp hnone)
      · rw [(Orchestrator.stop_monitor_frame _ doc).2.1]
        exact PortAllocator.is_allocated_release_self _ _

/-- C5 witness: the theorem applied to the concrete two-session orchestrator
wOrch, destroying the session of doc which owns process python:doc on
port 8001. -/
theorem C5_stop_before_release_witness :
    (∃ rest, (wOrch.destroy_session "doc").2.2
        = Event.stopProc "python:doc" :: Event.releasePort 8001 :: rest) ∧
    (wOrch.destroy_session "doc").2.1.processes.is_running "python:doc" = false ∧
    (wOrch.destroy_session "doc").2.1.port_allocator.is_allocated 8001 = false :=
  C5_stop_before_release wOrch "doc" "python:doc" 8001 wSession
    (by rfl) (by rfl) (by decide) (by rfl) (by decide) (by rfl)

/-! ### Process-name shape lemmas -/

theorem pythonName_ne_sync (d : String) : ("python:" ++ d) ≠ "mrmd-sync" := by
  intro h
  have h2 : ("python:" ++ d).data = "mrmd-sync".data := by rw [h]
  simp [String.data_append] at h2

theorem pythonName_ne_shared (d : String) : ("python:" ++ d) ≠ "mrmd-python" := by
  intro h
  have h2 : ("python:" ++ d).data = "mrmd-python".data := by rw [h]
  simp [String.data_append] at h2

theorem monitorName_ne_sync (d : String) : ("monitor:" ++ d) ≠ "mrmd-sync" := by
  intro h
  have h2 : ("monitor:" ++ d).data = "mrmd-sync".data := by rw [h]
  simp [String.data_append] at h2

theorem monitorName_ne_shared (d : String) : ("monitor:" ++ d) ≠ "mrmd-python" := by
  intro h
  have h2 : ("monitor:" ++ d).data = "mrmd-python".data := by rw [h]
  simp [String.data_append] at h2

theorem pythonName_ne_monitorName (a b : String) :
    ("python:" ++ a) ≠ ("monitor:" ++ b) := by
  intro h
  have h2 : ("python:" ++ a).data = ("monitor:" ++ b).data := by rw [h]
  simp [String.data_append] at h2

theorem pythonName_inj {a b : String} (h : ("python:" ++ a) = ("python:" ++ b)) :
    a = b := by
  have h2 : ("python:" ++ a).data = ("python:" ++ b).data := by rw [h]
  simp [String.data_append] at h2
  exact String.ext h2

theorem monitorName_inj {a b : String} (h : ("monitor:" ++ a) = ("monitor:" ++ b)) :
    a = b := by
  have h2 : ("monitor:" ++ a).data = ("monitor:" ++ b).data := by rw [h]
  simp [String.data_append] at h2
  exact String.ext h2

theorem PortAllocator.is_allocated_release_ne (pa : PortAllocator) {p q : Nat}
    (h : q ≠ p) : (pa.release p).is_allocated q = pa.is_allocated q := by
  simp [PortAllocator.is_allocated, PortAllocator.release, Finset.mem_erase, h]

/-! ### Claim C9 -/

/-- C9: destroy_session releases exactly the resources the session owns and
no others: every process it stops is the session's own runtime process or
the monitor tracked for the session's document, every port it releases is
the session's own runtime port, and the entries of every other document in
the session table are untouched, as is the allocation state of every port
the session does not own.  Under the reachable-state naming invariants
(runtime processes are named python:doc and the tracked monitor
monitor:doc), it follows that the sync server, the shared python runtime,
and other sessions' runtime or monitor processes are never stopped. -/
theorem C9_destroy_frame (o : Orchestrator) (doc : String) (sess : SessionInfo)
    (hs : dictGet o.sessions doc = some sess) :
    (∀ n, Event.stopProc n ∈ (o.destroy_session doc).2.2 →
        sess.runtime_process = some n ∨ dictGet o.monitors doc = some n) ∧
    (∀ q, Event.releasePort q ∈ (o.destroy_session doc).2.2 →
        sess.runtime_port = some q) ∧
    (∀ d', d' ≠ doc →
        dictGet (o.destroy_session doc).2.1.sessions d' = dictGet o.sessions d') ∧
    (∀ q, sess.runtime_port ≠ some q →
        (o.destroy_session doc).2.1.port_allocator.is_allocated q
          = o.port_allocator.is_allocated q) ∧
    ((sess.runtime_process = none ∨ sess.runtime_process = some ("python:" ++ doc)) →
     (∀ m, dictGet o.monitors doc = some m → m = "monitor:" ++ doc) →
     Event.stopProc "mrmd-sync" ∉ (o.destroy_session doc).2.2 ∧
     Event.stopProc "mrmd-python" ∉ (o.destroy_session doc).2.2 ∧
     ∀ d', d' ≠ doc →
       Event.stopProc ("python:" ++ d') ∉ (o.destroy_session doc).2.2 ∧
       Event.stopProc ("monitor:" ++ d') ∉ (o.destroy_session doc).2.2) := by
  have hstops : ∀ n, Event.stopProc n ∈ (o.destroy_session doc).2.2 →
      sess.runtime_process = some n ∨ dictGet o.monitors doc = some n := by
    intro n hn
    rcases Orchestrator.destroy_session_events o doc sess hs _ hn with
      ⟨m, hm, hor⟩ | ⟨q, hq, _⟩
    · injection hm with hm
      rw [hm]
      exact hor
    · cases hq
  have hshape : ∀ n,
      (sess.runtime_process = none ∨ sess.runtime_process = some ("python:" ++ doc)) →
      (∀ m, dictGet o.monitors doc = some m → m = "monitor:" ++ doc) →
      Event.stopProc n ∈ (o.destroy_session doc).2.2 →
      n = "python:" ++ doc ∨ n = "monitor:" ++ doc := by
    intro n hinv hmon hn
    rcases hstops n hn with hrt | hmo
    · rcases hinv with hinv | hinv
      · rw [hinv] at hrt; cases hrt
      · rw [hinv] at hrt
        injection hrt with hrt
        exact Or.inl hrt.symm
    · exact Or.inr (hmon n hmo)
  refine ⟨hstops, ?_, ?_, ?_, ?_⟩
  · intro q hq
    rcases Orchestrator.destroy_session_events o doc sess hs _ hq with
      ⟨m, hm, _⟩ | ⟨p, hp, hport⟩
    · cases hm
    · injection hp with hp
      rw [hp]
      exact hport
  · intro d' hd
    rw [Orchestrator.destroy_session_sessions o doc sess hs]
    exact dictGet_dictDel_ne _ _ _ hd
  · intro q hq
    rcases Orchestrator.destroy_session_port_allocator o doc sess hs with
      hsame | ⟨p, hp, _, hrel⟩
    · rw [hsame]
    · have hpq : q ≠ p := fun h => hq (h ▸ hp)
      rw [hrel]
      exact PortAllocator.is_allocated_release_ne _ hpq
  · intro hinv hmon
    refine ⟨?_, ?_, ?_⟩
    · intro hmem
      rcases hshape _ hinv hmon hmem with h | h
      · exact pythonName_ne_sync doc h.symm
      · exact monitorName_ne_sync doc h.symm
    · intro hmem
      rcases hshape _ hinv hmon hmem with h | h
      · exact pythonName_ne_shared doc h.symm
      · exact monitorName_ne_shared doc h.symm
    · intro d' hd
      constructor
      · intro hmem
        rcases hshape _ hinv hmon hmem with h | h
        · exact hd (pythonName_inj h)
        · exact pythonName_ne_monitorName d' doc h
      · intro hmem
        rcases hshape _ hinv hmon hmem with h | h
        · exact pythonName_ne_monitorName doc d' h.symm
        · exact hd (monitorName_inj h)

/-- C9 witness: the frame theorem applied to the concrete two-session
orchestrator wOrch and the session of doc. -/
theorem C9_destroy_frame_witness :
    (∀ n, Event.stopProc n ∈ (wOrch.destroy_session "doc").2.2 →
        wSession.runtime_process = some n ∨ dictGet wOrch.monitors "doc" = some n) ∧
    (∀ q, Event.releasePort q ∈ (wOrch.destroy_session "doc").2.2 →
        wSession.runtime_port = some q) ∧
    (∀ d', d' ≠ "doc" →
        dictGet (wOrch.destroy_session "doc").2.1.sessions d'
          = dictGet wOrch.sessions d') ∧
    (∀ q, wSession.runtime_port ≠ some q →
        (wOrch.destroy_session "doc").2.1.port_allocator.is_allocated q
          = wOrch.port_allocator.is_allocated q) ∧
    ((wSession.runtime_process = none ∨
        wSession.runtime_process = some ("python:" ++ "doc")) →
     (∀ m, dictGet wOrch.monitors "doc" = some m → m = "monitor:" ++ "doc") →
     Event.stopProc "mrmd-sync" ∉ (wOrch.destroy_session "doc").2.2 ∧
     Event.stopProc "mrmd-python" ∉ (wOrch.destroy_session "doc").2.2 ∧
     ∀ d', d' ≠ "doc" →
       Event.stopProc ("python:" ++ d') ∉ (wOrch.destroy_session "doc").2.2 ∧
       Event.stopProc ("monitor:" ++ d') ∉ (wOrch.destroy_session "doc").2.2) :=
  C9_destroy_frame wOrch "doc" wSession (by rfl)

/-! ### Claim C7 -/

/-- C7: destroy_session and stop_monitor are idempotent no-op successes on
absent targets: when no session (resp. no tracked monitor) exists for the
document both return success with the state unchanged and an empty event
trace, and in general a second destroy_session (resp. stop_monitor) right
after a first one is always such a no-op success. -/
theorem C7_idempotent_destroy (o : Orchestrator) (doc : String) :
    (dictGet o.sessions doc = none → o.destroy_session doc = (true, o, [])) ∧
    (dictGet o.monitors doc = none → o.stop_monitor doc = (true, o, [])) ∧
    ((o.destroy_session doc).2.1.destroy_session doc
        = (true, (o.destroy_session doc).2.1, [])) ∧
    ((o.stop_monitor doc).2.1.stop_monitor doc
        = (true, (o.stop_monitor doc).2.1, [])) := by
  have habsent : ∀ o' : Orchestrator, dictGet o'.sessions doc = none →
      o'.destroy_session doc = (true, o', []) := by
    intro o' h
    unfold Orchestrator.destroy_session
    rw [h]
  have hmabsent : ∀ o' : Orchestrator, dictGet o'.monitors doc = none →
      o'.stop_monitor doc = (true, o', []) := by
    intro o' h
    unfold Orchestrator.stop_monitor
    rw [h]
  refine ⟨habsent o, hmabsent o, ?_, ?_⟩
  · apply habsent
    unfold Orchestrator.destroy_session
    cases hs : dictGet o.sessions doc with
    | none => exact hs
    | some sess => exact dictGet_dictDel_self _ _
  · cases hg : dictGet o.monitors doc with
    | none =>
      have h1 := hmabsent o hg
      rw [h1]
      exact hmabsent o hg
    | some pname =>
      by_cases he : pname = ""
      · have h1 : o.stop_monitor doc = (true, o, []) := by
          unfold Orchestrator.stop_monitor
          rw [hg]
          dsimp only
          rw [if_pos he]
        rw [h1]
        exact h1
      · apply hmabsent
        unfold Orchestrator.stop_monitor
        rw [hg]
        dsimp only
        rw [if_neg he]
        split
        · exact dictGet_dictDel_self _ _
        · rename_i hf
          exact absurd (ProcessManager.stop_success o.processes pname) hf

/-- C7 witness: the absent-target components applied to a fresh orchestrator
with no sessions and no monitors. -/
theorem C7_idempotent_destroy_witness :
    (Orchestrator.init demoConfig).destroy_session "doc"
        = (true, Orchestrator.init demoConfig, []) ∧
    (Orchestrator.init demoConfig).stop_monitor "doc"
        = (true, Orchestrator.init demoConfig, []) :=
  ⟨(C7_idempotent_destroy (Orchestrator.init demoConfig) "doc").1 (by rfl),
   (C7_idempotent_destroy (Orchestrator.init demoConfig) "doc").2.1 (by rfl)⟩

/-! ### Lemmas about create_session on an existing session -/

theorem Orchestrator.destroy_session_success (o : Orchestrator) (doc : String) :
    (o.destroy_session doc).1 = true := by
  unfold Orchestrator.destroy_session
  cases dictGet o.sessions doc <;> rfl

theorem Orchestrator.create_session_same_mode (o : Orchestrator) (env : Env)
    (doc python : String) (sess : SessionInfo)
    (hs : dictGet o.sessions doc = some sess)
    (h : ((python == "dedicated") : Bool) = sess.dedicated_runtime) :
    o.create_session env doc python = some (sess, o, []) := by
  unfold Orchestrator.create_session
  rw [hs]
  dsimp only
  have hcond : ((python == "dedicated") != sess.dedicated_runtime) = false := by
    rw [h]
    simp
  rw [hcond]
  simp

theorem Orchestrator.create_session_diff_mode (o : Orchestrator) (env : Env)
    (doc python : String) (sess : SessionInfo)
    (hs : dictGet o.sessions doc = some sess)
    (h : ((python == "dedicated") : Bool) ≠ sess.dedicated_runtime) :
    o.create_session env doc python =
      (match (o.destroy_session doc).2.1.create_session_fresh env doc python with
       | some r => some (r.1, r.2.1, (o.destroy_session doc).2.2 ++ r.2.2)
       | none => none) ∧
    (o.destroy_session doc).1 = true ∧
    dictGet (o.destroy_session doc).2.1.sessions doc = none := by
  have hcond : ((python == "dedicated") != sess.dedicated_runtime) = true := by
    rcases Bool.eq_false_or_eq_true (python == "dedicated") with hb | hb <;>
      rcases Bool.eq_false_or_eq_true sess.dedicated_runtime with hd | hd <;>
        rw [hb, hd] at h ⊢ <;> simp_all
  refine ⟨?_, Orchestrator.destroy_session_success o doc, ?_⟩
  · unfold Orchestrator.create_session
    rw [hs]
    dsimp only
    rw [if_pos hcond]
    cases (o.destroy_session doc).2.1.create_session_fresh env doc python with
    | none => rfl
    | some r => rfl
  · rw [Orchestrator.destroy_session_sessions o doc sess hs]
    exact dictGet_dictDel_self _ _

/-! ### Claim C6 -/

/-- C6: for a document with an existing session, create_session with the
same binding mode as the stored session returns that SessionInfo with the
state unchanged and no events (idempotent), while create_session with the
other binding mode first destroys the existing session in full (the destroy
succeeds and removes the document from the session table) and only then
runs the fresh session-construction path, whose output is the result: a
full teardown-then-recreate, never an in-place mutation. -/
theorem C6_existing_session_modes (o : Orchestrator) (env : Env)
    (doc python : String) (sess : SessionInfo)
    (hs : dictGet o.sessions doc = some sess) :
    (((python == "dedicated") : Bool) = sess.dedicated_runtime →
        o.create_session env doc python = some (sess, o, [])) ∧
    (((python == "dedicated") : Bool) ≠ sess.dedicated_runtime →
        o.create_session env doc python =
          (match (o.destroy_session doc).2.1.create_session_fresh env doc python with
           | some r => some (r.1, r.2.1, (o.destroy_session doc).2.2 ++ r.2.2)
           | none => none) ∧
        (o.destroy_session doc).1 = true ∧
        dictGet (o.destroy_session doc).2.1.sessions doc = none) :=
  ⟨fun h => Orchestrator.create_session_same_mode o env doc python sess hs h,
   fun h => Orchestrator.create_session_diff_mode o env doc python sess hs h⟩

/-- C6 witness: requesting dedicated mode for the stored dedicated session
of doc in wOrch returns it unchanged. -/
theorem C6_existing_session_modes_witness :
    wOrch.create_session allEnv "doc" "dedicated" = some (wSession, wOrch, []) :=
  (C6_existing_session_modes wOrch allEnv "doc" "dedicated" wSession (by rfl)).1 (by rfl)

/-! ### Claim C2 -/

/-- C2 counterexample: with monitors managed and an environment in which the
monitor process for doc never reaches its readiness marker, create_session
leaves the monitor start failure in the process table, still stores and
returns a SessionInfo (creation is not aborted), but records no monitor name
in it: monitor_process is None, not the monitor's process name, refuting
the claim that the name is recorded regardless of whether the monitor
reached running. -/
theorem C2_counterexample :
    demoConfigMon.monitor.managed = true ∧
    c2Result.isSome = true ∧
    dictGet c2State.sessions "doc" = some c2Session ∧
    dictGet c2State.processes.table "monitor:doc" = some ProcStatus.failed ∧
    c2Session.monitor_process = none ∧
    c2Session.monitor_process ≠ some "monitor:doc" := by
  decide

/-- C2 (amended): with monitors managed, the monitor process name recorded
in the new SessionInfo is exactly the name tracked in the monitors table
after the start attempt — the name when the monitor reached running (or was
already tracked), and None when the start failed; a monitor start failure
does not abort session creation: a SessionInfo is still stored and
returned (in dedicated mode provided port allocation itself succeeds). -/
theorem C2_monitor_name_recording (o : Orchestrator) (env : Env)
    (doc python : String)
    (hno : dictGet o.sessions doc = none)
    (hm : o.config.monitor.managed = true)
    (halloc : python = "dedicated" → (o.port_allocator.allocate).isSome) :
    ∃ sess o' evs, o.create_session env doc python = some (sess, o', evs) ∧
      dictGet o'.sessions doc = some sess ∧
      sess.monitor_process = dictGet o'.monitors doc := by
  unfold Orchestrator.create_session
  rw [hno]
  unfold Orchestrator.create_session_fresh
  dsimp only
  rw [if_pos hm]
  by_cases hpy : python = "dedicated"
  · rw [if_pos hpy]
    rw [(Orchestrator.start_monitor_frame o env doc).2.1]
    obtain ⟨r, hal⟩ := Option.isSome_iff_exists.mp (halloc hpy)
    obtain ⟨port, pa1⟩ := r
    rw [hal]
    dsimp only
    cases hpe : env.pathExists o.config.python_package_path with
    | true =>
      rw [if_pos (rfl : (true : Bool) = true)]
      refine ⟨_, _, _, rfl, dictGet_dictSet_self _ _ _, ?_⟩
      dsimp only
      rw [if_pos hm]
    | false =>
      rw [if_neg (by simp : ¬((false : Bool) = true))]
      refine ⟨_, _, _, rfl, dictGet_dictSet_self _ _ _, ?_⟩
      dsimp only
      rw [if_pos hm]
  · rw [if_neg hpy]
    cases hrc : dictGet o.config.runtimes "python" with
    | none =>
      dsimp only
      refine ⟨_, _, _, rfl, dictGet_dictSet_self _ _ _, ?_⟩
      dsimp only
      rw [if_pos hm]
    | some pc =>
      dsimp only
      refine ⟨_, _, _, rfl, dictGet_dictSet_self _ _ _, ?_⟩
      dsimp only
      rw [if_pos hm]

/-- C2 witness: the amended theorem applied to the failed-monitor scenario. -/
theorem C2_monitor_name_recording_witness :
    ∃ sess o' evs,
      (Orchestrator.init demoConfigMon).create_session monitorFailEnv "doc" "shared"
        = some (sess, o', evs) ∧
      dictGet o'.sessions "doc" = some sess ∧
      sess.monitor_process = dictGet o'.monitors "doc" :=
  C2_monitor_name_recording (Orchestrator.init demoConfigMon) monitorFailEnv
    "doc" "shared" (by rfl) (by rfl) (fun h => absurd h (by decide))

/-! ### Claims C8 and C10: dedicated creation with a missing runtime package -/

theorem Orchestrator.create_session_dedicated_missing (o : Orchestrator) (env : Env)
    (doc : String) (hno : dictGet o.sessions doc = none)
    (hmiss : env.pathExists o.config.python_package_path = false)
    (port : Nat) (pa1 : PortAllocator)
    (hal : o.port_allocator.allocate = some (port, pa1)) :
    ∃ sess o' evs, o.create_session env doc "dedicated" = some (sess, o', evs) ∧
      dictGet o'.sessions doc = some sess ∧
      sess.runtime_process = none ∧ sess.runtime_url = none ∧
      sess.runtime_port = none ∧ sess.dedicated_runtime = false ∧
      o'.port_allocator = pa1.release port := by
  unfold Orchestrator.create_session
  rw [hno]
  unfold Orchestrator.create_session_fresh
  dsimp only
  by_cases hmg : o.config.monitor.managed = true
  · rw [if_pos hmg]
    rw [if_pos (rfl : ("dedicated" : String) = "dedicated")]
    rw [(Orchestrator.start_monitor_frame o env doc).2.1]
    rw [hal]
    dsimp only
    rw [if_neg (by simp [hmiss])]
    exact ⟨_, _, _, rfl, dictGet_dictSet_self _ _ _, rfl, rfl, rfl, rfl, rfl⟩
  · rw [if_neg hmg]
    rw [if_pos (rfl : ("dedicated" : String) = "dedicated")]
    rw [hal]
    dsimp only
    rw [if_neg (by simp [hmiss])]
    exact ⟨_, _, _, rfl, dictGet_dictSet_self _ _ _, rfl, rfl, rfl, rfl, rfl⟩

/-! ### Claim C8 -/

/-- C8: in create_session with mode dedicated, when the runtime package's
working directory cannot be found, the just-allocated port is released
immediately — the final reserved set equals the initial one and the port is
not allocated — and the session is stored and returned without a usable
runtime binding (no runtime process, url or port, dedicated flag false);
the failure is not raised: create_session still returns a SessionInfo. -/
theorem C8_missing_package_releases_port (o : Orchestrator) (env : Env)
    (doc : String) (hno : dictGet o.sessions doc = none)
    (hmiss : env.pathExists o.config.python_package_path = false)
    (port : Nat) (pa1 : PortAllocator)
    (hal : o.port_allocator.allocate = some (port, pa1)) :
    ∃ sess o' evs, o.create_session env doc "dedicated" = some (sess, o', evs) ∧
      dictGet o'.sessions doc = some sess ∧
      sess.runtime_process = none ∧ sess.runtime_url = none ∧
      sess.runtime_port = none ∧ sess.dedicated_runtime = false ∧
      o'.port_allocator.is_allocated port = false ∧
      o'.port_allocator.allocated = o.port_allocator.allocated := by
  obtain ⟨sess, o', evs, h1, h2, h3, h4, h5, h6, h7⟩ :=
    Orchestrator.create_session_dedicated_missing o env doc hno hmiss port pa1 hal
  obtain ⟨hfree, _, _, _, _, hins⟩ := PortAllocator.allocate_some hal
  refine ⟨sess, o', evs, h1, h2, h3, h4, h5, h6, ?_, ?_⟩
  · rw [h7]
    exact PortAllocator.is_allocated_release_self _ _
  · rw [h7]
    show (pa1.allocated.erase port) = _
    rw [hins]
    exact Finset.erase_insert hfree

/-- C8 witness: the theorem applied to a fresh orchestrator over demoConfig
in the environment whose python package directory is missing; the first
allocation hands out port 8001. -/
theorem C8_missing_package_releases_port_witness :
    ∃ sess o' evs,
      (Orchestrator.init demoConfig).create_session noPyEnv "doc" "dedicated"
        = some (sess, o', evs) ∧
      dictGet o'.sessions "doc" = some sess ∧
      sess.runtime_process = none ∧ sess.runtime_url = none ∧
      sess.runtime_port = none ∧ sess.dedicated_runtime = false ∧
      o'.port_allocator.is_allocated 8001 = false ∧
      o'.port_allocator.allocated = (Orchestrator.init demoConfig).port_allocator.allocated :=
  C8_missing_package_releases_port (Orchestrator.init demoConfig) noPyEnv "doc"
    (by rfl) (by decide) 8001 ⟨8001, 100, {8001}⟩ (by rfl)

/-! ### Claim C10 -/

/-- C10: when create_session(doc, dedicated) runs while the configured
python runtime package path does not exist, the stored SessionInfo has
dedicated_runtime false and no runtime process, port or url; consequently a
later create_session(doc, dedicated) does not return it unchanged but takes
the destroy-then-recreate path (the stored session is removed before the
fresh creation), while a later create_session(doc, shared) returns it
unchanged. -/
theorem C10_failed_dedicated_followups (o : Orchestrator) (env : Env)
    (doc : String) (hno : dictGet o.sessions doc = none)
    (hmiss : env.pathExists o.config.python_package_path = false)
    (port : Nat) (pa1 : PortAllocator)
    (hal : o.port_allocator.allocate = some (port, pa1)) :
    ∃ sess o' evs, o.create_session env doc "dedicated" = some (sess, o', evs) ∧
      dictGet o'.sessions doc = some sess ∧
      sess.dedicated_runtime = false ∧ sess.runtime_process = none ∧
      sess.runtime_port = none ∧ sess.runtime_url = none ∧
      (∀ env2 : Env, o'.create_session env2 doc "shared" = some (sess, o', [])) ∧
      (∀ env2 : Env,
        o'.create_session env2 doc "dedicated" =
          (match (o'.destroy_session doc).2.1.create_session_fresh env2 doc "dedicated" with
           | some r => some (r.1, r.2.1, (o'.destroy_session doc).2.2 ++ r.2.2)
           | none => none) ∧
        dictGet (o'.destroy_session doc).2.1.sessions doc = none) := by
  obtain ⟨sess, o', evs, h1, h2, h3, h4, h5, h6, _⟩ :=
    Orchestrator.create_session_dedicated_missing o env doc hno hmiss port pa1 hal
  refine ⟨sess, o', evs, h1, h2, h6, h3, h5, h4, ?_, ?_⟩
  · intro env2
    apply Orchestrator.create_session_same_mode o' env2 doc "shared" sess h2
    rw [h6]
    decide
  · intro env2
    have hd := Orchestrator.create_session_diff_mode o' env2 doc "dedicated" sess h2
      (by rw [h6]; decide)
    exact ⟨hd.1, hd.2.2⟩

/-- C10 witness: the theorem applied to the same concrete missing-package
scenario, starting from a fresh orchestrator over demoConfig. -/
theorem C10_failed_dedicated_followups_witness :
    ∃ sess o' evs,
      (Orchestrator.init demoConfig).create_session noPyEnv "doc" "dedicated"
        = some (sess, o', evs) ∧
      dictGet o'.sessions "doc" = some sess ∧
      sess.dedicated_runtime = false ∧ sess.runtime_process = none ∧
      sess.runtime_port = none ∧ sess.runtime_url = none ∧
      (∀ env2 : Env, o'.create_session env2 "doc" "shared" = some (sess, o', [])) ∧
      (∀ env2 : Env,
        o'.create_session env2 "doc" "dedicated" =
          (match (o'.destroy_session "doc").2.1.create_session_fresh env2 "doc" "dedicated" with
           | some r => some (r.1, r.2.1, (o'.destroy_session "doc").2.2 ++ r.2.2)
           | none => none) ∧
        dictGet (o'.destroy_session "doc").2.1.sessions "doc" = none) :=
  C10_failed_dedicated_followups (Orchestrator.init demoConfig) noPyEnv "doc"
    (by rfl) (by decide) 8001 ⟨8001, 100, {8001}⟩ (by rfl)

end Mrmd
